import Mathlib

/-!
Shallow embedding of the metadata wizard core (dataplexutils, metadata/wizard.py):
prompt assembly (PromptManager), strategy-driven batch traversal
(generate_dataset_tables_descriptions, _order_tables_to_strategy), the
draft-aspect workflow (_update_table_draft_description, accept operations),
single-column schema rewriting (_get_updated_column,
_update_column_bq_description), the retrying model call (_llm_inference) and
capability-flag handling (_get_table_sources_info, _get_job_sources).
Template strings from constants.toml are opaque configuration, modelled as
abstract fragment labels; external collaborators (BigQuery, Dataplex catalog,
lineage) are modelled as explicit environments.
-/

/-- Capability flags of ClientOptions (wizard.py lines 184-205), in the order of
the constructor parameters of the source class. -/
structure ClientOptions where
  use_lineage_tables : Bool
  use_lineage_processes : Bool
  use_profile : Bool
  use_data_quality : Bool
  use_ext_documents : Bool
  persist_to_dataplex_catalog : Bool
  stage_for_review : Bool
  add_ai_warning : Bool
deriving DecidableEq

/-- Prompt template fragments of constants.toml referenced by PromptManager.
Each constructor stands for one constants lookup in the source. -/
inductive Frag where
  | systemPrompt
  | tableDescriptionPromptBase
  | columnDescriptionPromptBase
  | tableDescriptionPromptProfile
  | tableDescriptionPromptQuality
  | tableDescriptionPromptLineageTables
  | tableDescriptionPromptLineageProcesses
  | tableDescriptionPromptDocument
  | tableDescriptionGenerationBase
  | tableDescriptionGenerationLineage
  | outputFormatPrompt
deriving DecidableEq

/-- PromptManager._get_prompt_table (wizard.py lines 86-142): sequential
concatenation of template fragments, each optional fragment gated by a flag. -/
def _get_prompt_table (o : ClientOptions) : List Frag :=
  let p := [Frag.systemPrompt]
  let p := p ++ [Frag.tableDescriptionPromptBase]
  let p := if o.use_profile then p ++ [Frag.tableDescriptionPromptProfile] else p
  let p := if o.use_data_quality then p ++ [Frag.tableDescriptionPromptQuality] else p
  let p := if o.use_lineage_tables then p ++ [Frag.tableDescriptionPromptLineageTables] else p
  let p := if o.use_lineage_processes then p ++ [Frag.tableDescriptionPromptLineageProcesses] else p
  let p := if o.use_ext_documents then p ++ [Frag.tableDescriptionPromptDocument] else p
  let p := p ++ [Frag.tableDescriptionGenerationBase]
  let p := if o.use_lineage_tables || o.use_lineage_processes then
    p ++ [Frag.tableDescriptionGenerationLineage] else p
  p ++ [Frag.outputFormatPrompt]

/-- PromptManager._get_prompt_columns (wizard.py lines 144-181). The column
prompt reuses the table profile and quality and lineage fragments; it has no
document clause, no generation-base clause and no lineage-generation clause. -/
def _get_prompt_columns (o : ClientOptions) : List Frag :=
  let p := [Frag.systemPrompt]
  let p := p ++ [Frag.columnDescriptionPromptBase]
  let p := if o.use_profile then p ++ [Frag.tableDescriptionPromptProfile] else p
  let p := if o.use_data_quality then p ++ [Frag.tableDescriptionPromptQuality] else p
  let p := if o.use_lineage_tables then p ++ [Frag.tableDescriptionPromptLineageTables] else p
  let p := if o.use_lineage_processes then p ++ [Frag.tableDescriptionPromptLineageProcesses] else p
  p ++ [Frag.outputFormatPrompt]

/-- Claim C6 reading of the assembly order for TABLE kind: the fragments in the
order the claim lists them, with the TABLE-only markers of the claim. -/
def claimPromptTable (o : ClientOptions) : List Frag :=
  [Frag.systemPrompt, Frag.tableDescriptionPromptBase] ++
  (if o.use_profile then [Frag.tableDescriptionPromptProfile] else []) ++
  (if o.use_data_quality then [Frag.tableDescriptionPromptQuality] else []) ++
  (if o.use_lineage_tables then [Frag.tableDescriptionPromptLineageTables] else []) ++
  (if o.use_lineage_processes then [Frag.tableDescriptionPromptLineageProcesses] else []) ++
  (if o.use_ext_documents then [Frag.tableDescriptionPromptDocument] else []) ++
  [Frag.tableDescriptionGenerationBase] ++
  (if o.use_lineage_tables || o.use_lineage_processes then
    [Frag.tableDescriptionGenerationLineage] else []) ++
  [Frag.outputFormatPrompt]

/-- Claim C6 reading of the assembly order for COLUMN kind: the claim marks only
the document clause and the lineage-generation clause as TABLE only, so its
column prompt keeps the generation-base clause. -/
def claimPromptColumn (o : ClientOptions) : List Frag :=
  [Frag.systemPrompt, Frag.columnDescriptionPromptBase] ++
  (if o.use_profile then [Frag.tableDescriptionPromptProfile] else []) ++
  (if o.use_data_quality then [Frag.tableDescriptionPromptQuality] else []) ++
  (if o.use_lineage_tables then [Frag.tableDescriptionPromptLineageTables] else []) ++
  (if o.use_lineage_processes then [Frag.tableDescriptionPromptLineageProcesses] else []) ++
  [Frag.tableDescriptionGenerationBase] ++
  [Frag.outputFormatPrompt]

/-- Amended reading of the COLUMN assembly order: as the source writes it, with
no generation-base clause (that clause is appended by the table prompt only). -/
def claimPromptColumnAmended (o : ClientOptions) : List Frag :=
  [Frag.systemPrompt, Frag.columnDescriptionPromptBase] ++
  (if o.use_profile then [Frag.tableDescriptionPromptProfile] else []) ++
  (if o.use_data_quality then [Frag.tableDescriptionPromptQuality] else []) ++
  (if o.use_lineage_tables then [Frag.tableDescriptionPromptLineageTables] else []) ++
  (if o.use_lineage_processes then [Frag.tableDescriptionPromptLineageProcesses] else []) ++
  [Frag.outputFormatPrompt]

/-- Python values appearing in the membership tests of the DOCUMENTED
strategies: dataset table names are strings, parsed CSV rows are
(table, doc-uri) pairs. -/
inductive PyVal where
  | str (s : String)
  | pair (a b : String)
deriving DecidableEq

/-- Python equality test: values of different shapes compare unequal. -/
def pyEq : PyVal → PyVal → Bool
  | PyVal.str a, PyVal.str b => a == b
  | PyVal.pair a b, PyVal.pair c d => a == c && b == d
  | _, _ => false

/-- Python membership test `v in l` on a list. -/
def pyIn (v : PyVal) (l : List PyVal) : Bool := l.any (pyEq v)

/-- Generation strategies of constants.toml GENERATION_STRATEGY. -/
inductive Strategy where
  | NAIVE
  | RANDOM
  | ALPHABETICAL
  | DOCUMENTED
  | DOCUMENTED_THEN_REST
deriving DecidableEq

/-- Errors that generate_dataset_tables_descriptions can raise before or during
the batch: the explicit ValueError for a missing documentation URI, the
ValueError raised for a mapped table the membership test rejects (the message
interpolates the whole CSV row), and the AttributeError Python raises when
_get_tables_from_uri calls .split on None. -/
inductive BatchErr where
  | missingDocUri
  | tableNotFound (row : String × String)
  | noneTypeAttributeError
deriving DecidableEq

/-- ValueError is the validation error class of the spec taxonomy; the
AttributeError coming from None.split is not. -/
def BatchErr.isValidationError : BatchErr → Bool
  | BatchErr.missingDocUri => true
  | BatchErr.tableNotFound _ => true
  | BatchErr.noneTypeAttributeError => false

/-- DOCUMENTED branch loop (wizard.py lines 283-288): for each CSV row, test
`table[0] not in tables` and raise, else generate for that row, then continue.
Returns the generation events (table, doc uri) in order plus the error, if
any, that stopped the loop. -/
def documentedLoop (tables : List String) :
    List (String × String) → List (String × Option String) × Option BatchErr
  | [] => ([], none)
  | (t, u) :: rest =>
    if pyIn (PyVal.str t) (tables.map PyVal.str) then
      let r := documentedLoop tables rest
      ((t, some u) :: r.1, r.2)
    else
      ([], some (BatchErr.tableNotFound (t, u)))

/-- DOCUMENTED_THEN_REST first loop (wizard.py lines 290-295): the membership
test is `table not in tables` where table is the whole (name, uri) row, so the
row is compared against a list of plain table-name strings. -/
def documentedThenRestLoop (tables : List String) :
    List (String × String) → List (String × Option String) × Option BatchErr
  | [] => ([], none)
  | (t, u) :: rest =>
    if pyIn (PyVal.pair t u) (tables.map PyVal.str) then
      let r := documentedThenRestLoop tables rest
      ((t, some u) :: r.1, r.2)
    else
      ([], some (BatchErr.tableNotFound (t, u)))

/-- Client._order_tables_to_strategy (wizard.py lines 589-600). random.shuffle
is modelled by an explicit shuffle argument; sorted(tables) is modelled by
insertion sort under the lexicographic order on strings. -/
def _order_tables_to_strategy (tables : List String) (strategy : Strategy)
    (shuffle : List String → List String) : List String :=
  match strategy with
  | Strategy.NAIVE => tables
  | Strategy.RANDOM => shuffle tables
  | Strategy.ALPHABETICAL => List.insertionSort (fun a b => a ≤ b) tables
  | _ => tables

/-- Client.generate_dataset_tables_descriptions (wizard.py lines 243-309),
as a trace semantics: `tables` is the result of _list_tables_in_dataset,
`documentation_csv_uri` is none for a null URI and otherwise carries the rows
parsed from the CSV, and the result is the list of generation events
(table, doc uri) in execution order together with the raised error, if any.
Only the DOCUMENTED strategy is guarded by the explicit missing-URI
ValueError (line 277-279); DOCUMENTED_THEN_REST reaches
_get_tables_from_uri(None), which fails with an AttributeError. -/
def generate_dataset_tables_descriptions (tables : List String) (strategy : Strategy)
    (documentation_csv_uri : Option (List (String × String)))
    (shuffle : List String → List String) :
    List (String × Option String) × Option BatchErr :=
  match strategy with
  | Strategy.DOCUMENTED =>
    match documentation_csv_uri with
    | none => ([], some BatchErr.missingDocUri)
    | some mapping => documentedLoop tables mapping
  | Strategy.DOCUMENTED_THEN_REST =>
    match documentation_csv_uri with
    | none => ([], some BatchErr.noneTypeAttributeError)
    | some mapping =>
      let r := documentedThenRestLoop tables mapping
      match r.2 with
      | some e => (r.1, some e)
      | none =>
        let firsts := mapping.map Prod.fst
        (r.1 ++
          (tables.filter (fun t => !(pyIn (PyVal.str t) (firsts.map PyVal.str)))).map
            (fun t => (t, none)),
          none)
  | s => ((_order_tables_to_strategy tables s shuffle).map (fun t => (t, none)), none)

/-- BigQuery SchemaField as constructed by _get_updated_column (wizard.py lines
694-711): the nine constructor arguments the source passes, in source order.
Sub-fields are themselves schema fields, hence the recursion. -/
inductive SchemaField where
  | mk
    (name : String)
    (fieldType : String)
    (mode : String)
    (defaultValueExpression : Option String)
    (description : Option String)
    (fields : List SchemaField)
    (policyTags : Option String)
    (precision : Option Nat)
    (maxLength : Option Nat)

def SchemaField.name : SchemaField → String
  | SchemaField.mk n _ _ _ _ _ _ _ _ => n

def SchemaField.fieldType : SchemaField → String
  | SchemaField.mk _ t _ _ _ _ _ _ _ => t

def SchemaField.mode : SchemaField → String
  | SchemaField.mk _ _ m _ _ _ _ _ _ => m

def SchemaField.defaultValueExpression : SchemaField → Option String
  | SchemaField.mk _ _ _ d _ _ _ _ _ => d

def SchemaField.description : SchemaField → Option String
  | SchemaField.mk _ _ _ _ d _ _ _ _ => d

def SchemaField.fields : SchemaField → List SchemaField
  | SchemaField.mk _ _ _ _ _ f _ _ _ => f

def SchemaField.policyTags : SchemaField → Option String
  | SchemaField.mk _ _ _ _ _ _ p _ _ => p

def SchemaField.precision : SchemaField → Option Nat
  | SchemaField.mk _ _ _ _ _ _ _ p _ => p

def SchemaField.maxLength : SchemaField → Option Nat
  | SchemaField.mk _ _ _ _ _ _ _ _ m => m

/-- Client._get_updated_column (wizard.py lines 694-711): rebuilds the schema
field with the new description truncated to MAX_COLUMN_DESC_LENGTH (the
constants.toml bound, passed here as maxLen), copying the other attributes. -/
def _get_updated_column (column : SchemaField) (columnDescription : String)
    (maxLen : Nat) : SchemaField :=
  SchemaField.mk column.name column.fieldType column.mode
    column.defaultValueExpression (some (columnDescription.take maxLen))
    column.fields column.policyTags column.precision column.maxLength

/-- Client._update_column_bq_description schema rewrite (wizard.py lines
1347-1377): the loop appending either the rebuilt target column or the
original column object, producing the full schema handed to
_update_table_schema. -/
def _update_column_bq_description (schema : List SchemaField)
    (columnName description : String) (maxLen : Nat) : List SchemaField :=
  schema.map (fun column =>
    if column.name == columnName then _get_updated_column column description maxLen
    else column)

/-- Draft aspect data record (wizard.py lines 1542-1551): the key-value map
stored in the aspect, one Lean field per key of new_aspect_content. -/
structure AspectData where
  certified : String
  userWhoCertified : String
  contents : String
  generationDate : String
  toBeRegenerated : String
  humanComments : List String
  negativeExamples : List String
  externalDocumentUri : String
deriving DecidableEq

/-- Fresh aspect content built by _update_table_draft_description before the
merge check (wizard.py lines 1542-1551). -/
def newAspectContent (description : String) : AspectData :=
  { certified := "false"
    userWhoCertified := "John Doe"
    contents := description
    generationDate := "2023-06-15T10:00:00Z"
    toBeRegenerated := "false"
    humanComments := []
    negativeExamples := []
    externalDocumentUri := "gs://example.com/document" }

/-- One entry of entry.aspects: the map key the source iterates over, the
aspect_type resource name, the path and the data record. -/
structure Aspect where
  key : String
  aspectType : String
  path : String
  data : AspectData
deriving DecidableEq

/-- Python str.endswith: suffix test on the character sequence. -/
def pyEndsWith (s suffix : String) : Bool :=
  suffix.data.isSuffixOf s.data

/-- Match test of _update_table_draft_description (wizard.py line 1578): the
aspects-map key ends with global.<aspect template name> and the path is the
table scope "". -/
def draftKeyMatches (aspectTemplateName : String) (a : Aspect) : Bool :=
  pyEndsWith a.key ("global." ++ aspectTemplateName) && a.path == ""

/-- Struct update applied to a matching existing aspect (wizard.py lines
1580-1585): contents, generation-date and to-be-regenerated are overwritten,
every other key of the old record is kept. -/
def mergeDraftData (old : AspectData) (description now : String) : AspectData :=
  { old with contents := description, generationDate := now, toBeRegenerated := "false" }

/-- Client._update_table_draft_description (wizard.py lines 1528-1609), reduced
to the data record it stores: starts from the fresh content, then for every
aspect of the fetched entry that matches the table-scope draft key, replaces
the record by that aspect's data merged with the new contents, generation date
and reset regeneration marker. `now` stands for datetime.datetime.now(). -/
def _update_table_draft_description (aspectTemplateName : String)
    (entryAspects : List Aspect) (description now : String) : AspectData :=
  entryAspects.foldl
    (fun acc a =>
      if draftKeyMatches aspectTemplateName a then mergeDraftData a.data description now
      else acc)
    (newAspectContent description)

/-- Aspect scan of accept_table_draft_description (wizard.py lines 1288-1296):
overview is (re)assigned the contents of every aspect whose aspect_type ends
with aspectTypes/<name>; the path is not inspected. none models the unbound
overview variable when no aspect matches. -/
def acceptTableOverview (aspectTemplateName : String) (aspects : List Aspect) :
    Option String :=
  aspects.foldl
    (fun acc a =>
      if pyEndsWith a.aspectType ("aspectTypes/" ++ aspectTemplateName) then
        some a.data.contents
      else acc)
    none

/-- Client.accept_table_draft_description (wizard.py lines 1260-1298): the pair
of writes it performs, (catalog overview, BigQuery table description), both
set to the located contents. -/
def accept_table_draft_description (aspectTemplateName : String)
    (aspects : List Aspect) : Option (String × String) :=
  match acceptTableOverview aspectTemplateName aspects with
  | some o => some (o, o)
  | none => none

/-- Aspect scan of accept_column_draft_description (wizard.py lines 1334-1342):
the aspect_type must end with aspectTypes/<name> and the path must end with
Schema.<column>. overview is initialised to None in the source. -/
def acceptColumnOverview (aspectTemplateName columnName : String)
    (aspects : List Aspect) : Option String :=
  aspects.foldl
    (fun acc a =>
      if pyEndsWith a.aspectType ("aspectTypes/" ++ aspectTemplateName) &&
          pyEndsWith a.path ("Schema." ++ columnName) then
        some a.data.contents
      else acc)
    none

/-- Client.accept_column_draft_description (wizard.py lines 1303-1345): locates
the column draft contents and hands them to _update_column_bq_description,
whose rewritten schema is the warehouse write. -/
def accept_column_draft_description (aspectTemplateName columnName : String)
    (aspects : List Aspect) (schema : List SchemaField) (maxLen : Nat) :
    Option (List SchemaField) :=
  (acceptColumnOverview aspectTemplateName columnName aspects).map
    (fun o => _update_column_bq_description schema columnName o maxLen)

/-- Retry loop of Client._llm_inference (wizard.py lines 1166-1213): retries=3,
base_delay=1, for attempt in range(retries+1); on error at the last attempt
the error is re-raised, otherwise the loop sleeps base_delay * 2 ** attempt and
continues. `remaining` counts the attempts still allowed after this one and
`slept` accumulates the seconds spent sleeping. -/
def llmGo (f : Nat → Except String String) (baseDelay : Nat) :
    Nat → Nat → Nat → Except String String × Nat
  | 0, attempt, slept =>
    match f attempt with
    | Except.ok t => (Except.ok t, slept)
    | Except.error e => (Except.error e, slept)
  | Nat.succ r, attempt, slept =>
    match f attempt with
    | Except.ok t => (Except.ok t, slept)
    | Except.error _ => llmGo f baseDelay r (attempt + 1) (slept + baseDelay * 2 ^ attempt)

/-- Client._llm_inference over a sequence of attempt outcomes f: result of the
call together with the total seconds slept (retries=3, base_delay=1). -/
def _llm_inference (f : Nat → Except String String) : Except String String × Nat :=
  llmGo f 1 3 0 0

/-- Python error classes relevant to the not-found path: the google NotFound
raised by _table_exists, and the TypeError produced by calling an exception
instance as if it were a class. -/
inductive PyErr where
  | notFound
  | typeErrorNotCallable
  | otherErr (s : String)
deriving DecidableEq

/-- Client._table_exists (wizard.py lines 713-727): re-raises NotFound when the
BigQuery lookup fails. -/
def _table_exists (tableExistsInBq : Bool) : Except PyErr Unit :=
  if tableExistsInBq then Except.ok () else Except.error PyErr.notFound

/-- Error behaviour of Client.generate_table_description (wizard.py lines
383-463): the body starts with _table_exists and has no surrounding
try/except, so a NotFound from it propagates to the caller unchanged; `rest`
stands for the remainder of the body. -/
def generate_table_description_result (tableExistsInBq : Bool)
    (rest : Except PyErr String) : Except PyErr String :=
  match _table_exists tableExistsInBq with
  | Except.error e => Except.error e
  | Except.ok _ => rest

/-- Error behaviour of Client.generate_columns_descriptions (wizard.py lines
465-545): the whole body is wrapped in try/except whose handler executes
`raise e(message=...)`; e is an exception instance, not a class, so calling it
raises TypeError, replacing whatever error the body produced. -/
def generate_columns_descriptions_result (tableExistsInBq : Bool)
    (rest : Except PyErr String) : Except PyErr Unit :=
  match (do
      let _ ← _table_exists tableExistsInBq
      let _ ← rest
      pure () : Except PyErr Unit) with
  | Except.ok _ => Except.ok ()
  | Except.error _ => Except.error PyErr.typeErrorNotCallable

/-- One source-table record built by _get_table_sources_info (wizard.py lines
1012-1024); schema and description strings are supplied by the environment. -/
structure TableSourceInfo where
  sourceTableName : String
  sourceTableSchema : String
  sourceTableDescription : String
deriving DecidableEq

/-- External lineage collaborators as seen by _get_table_sources_info and
_get_job_sources: the upstream table list, per-table lookups, the
search_links call (error = the exception its inner try swallows), the
process pipeline and per-job query lookup. -/
structure LineageEnv where
  tableSources : List String
  sourceSchema : String → String
  sourceDescription : String → String
  searchLinks : Except Unit (List String)
  linkProcesses : List String → List String
  processJobId : String → Option String
  jobQuery : String → String

/-- Client._get_table_sources_info (wizard.py lines 999-1032): builds one
record per upstream table; when the flag is enabled and the result list is
empty it assigns self._client_options._use_lineage_tables = False on the
shared options object before returning. -/
def _get_table_sources_info (opts : ClientOptions) (useEnabled : Bool)
    (env : LineageEnv) : List TableSourceInfo × ClientOptions :=
  if useEnabled then
    let info := env.tableSources.map (fun s =>
      { sourceTableName := s
        sourceTableSchema := env.sourceSchema s
        sourceTableDescription := env.sourceDescription s })
    if info.isEmpty then (info, { opts with use_lineage_tables := false })
    else (info, opts)
  else ([], opts)

/-- Client._get_job_sources (wizard.py lines 1076-1141): a failing search_links
returns [] without touching the options; with links present, the process
pipeline yields the job queries, and an empty query list or an empty link list
assigns self._client_options._use_lineage_processes = False on the shared
options object. -/
def _get_job_sources (opts : ClientOptions) (useEnabled : Bool)
    (env : LineageEnv) : List String × ClientOptions :=
  if useEnabled then
    match env.searchLinks with
    | Except.error _ => ([], opts)
    | Except.ok links =>
      if 0 < links.length then
        let sql := (env.linkProcesses links).filterMap
          (fun p => (env.processJobId p).map env.jobQuery)
        if sql.isEmpty then (sql, { opts with use_lineage_processes := false })
        else (sql, opts)
      else ([], { opts with use_lineage_processes := false })
  else ([], opts)

/-- Scan results environment for _get_table_profile_quality. -/
structure ScanEnv where
  dataProfileResults : List String
  dataQualityResults : List String
deriving DecidableEq

/-- Client._get_table_profile_quality (wizard.py lines 933-997): returns the
collected scan results when enabled, empty lists otherwise. -/
def _get_table_profile_quality (useEnabled : Bool) (env : ScanEnv) :
    List String × List String :=
  if useEnabled then (env.dataProfileResults, env.dataQualityResults) else ([], [])

/-- Client._get_table_profile (wizard.py lines 882-904): the flag-suppression
assignment in the source is commented out, so the options pass through
unchanged. -/
def _get_table_profile (opts : ClientOptions) (useEnabled : Bool) (env : ScanEnv) :
    List String × ClientOptions :=
  ((_get_table_profile_quality useEnabled env).1, opts)

/-- Client._get_table_quality (wizard.py lines 906-931): the flag-suppression
assignment in the source is commented out, so the options pass through
unchanged. -/
def _get_table_quality (opts : ClientOptions) (useEnabled : Bool) (env : ScanEnv) :
    List String × ClientOptions :=
  ((_get_table_profile_quality useEnabled env).2, opts)

/-- Concrete all-flags-enabled options for the capability-flag examples. -/
def optsAllOn : ClientOptions :=
  { use_lineage_tables := true
    use_lineage_processes := true
    use_profile := true
    use_data_quality := true
    use_ext_documents := true
    persist_to_dataplex_catalog := true
    stage_for_review := true
    add_ai_warning := true }

/-- Concrete all-flags-disabled options for the prompt examples. -/
def optsAllOff : ClientOptions :=
  { use_lineage_tables := false
    use_lineage_processes := false
    use_profile := false
    use_data_quality := false
    use_ext_documents := false
    persist_to_dataplex_catalog := false
    stage_for_review := false
    add_ai_warning := false }

/-- Lineage environment with no upstream tables and no links. -/
def envNoLineage : LineageEnv :=
  { tableSources := []
    sourceSchema := fun _ => ""
    sourceDescription := fun _ => ""
    searchLinks := Except.ok []
    linkProcesses := fun _ => []
    processJobId := fun _ => none
    jobQuery := fun _ => "" }

/-- Lineage environment with one upstream table. -/
def envOneSource : LineageEnv :=
  { envNoLineage with tableSources := ["p.d.src"] }

/-- Concrete table-scope draft aspect used by the draft-merge example: a record
that already accumulated one human comment and one negative example. -/
def aspectTableDraft : Aspect :=
  { key := "p.global.draftname"
    aspectType := "projects/p/locations/global/aspectTypes/draftname"
    path := ""
    data :=
      { certified := "true"
        userWhoCertified := "Reviewer"
        contents := "old text"
        generationDate := "2024-01-01T00:00:00Z"
        toBeRegenerated := "true"
        humanComments := ["keep it short"]
        negativeExamples := ["do not mention row counts"]
        externalDocumentUri := "gs://bucket/doc.pdf" } }

/-- Concrete column-scope draft aspect for the same entry: same aspect type as
the table draft, column path, different contents. -/
def aspectColumnDraft : Aspect :=
  { key := "p.global.draftname@Schema.c"
    aspectType := "projects/p/locations/global/aspectTypes/draftname"
    path := "Schema.c"
    data := newAspectContent "Y" }

/-- Concrete two-column schema for the schema-rewrite example. -/
def sampleSchema : List SchemaField :=
  [SchemaField.mk "id" "INTEGER" "REQUIRED" none none [] none none none,
   SchemaField.mk "payload" "STRING" "NULLABLE" none (some "old") [] none none (some 64)]

/-! Helper lemmas shared by the claim theorems. -/

/-- Folding an if-then-keep step over aspects none of which match leaves the
accumulator unchanged. -/
theorem foldl_if_no_match {α β : Type} (p : α → Bool) (g : α → β) :
    ∀ (l : List α) (acc : β), (∀ b ∈ l, p b = false) →
      List.foldl (fun acc b => if p b then g b else acc) acc l = acc := by
  intro l
  induction l with
  | nil => intro acc _; rfl
  | cons x xs ih =>
    intro acc h
    have hx : p x = false := h x (List.mem_cons_self x xs)
    have hxs : ∀ b ∈ xs, p b = false := fun b hb => h b (List.mem_cons_of_mem x hb)
    simp only [List.foldl_cons, hx, Bool.false_eq_true, if_false]
    exact ih acc hxs

/-- Folding an if-then-keep step over l1 ++ a :: l2 where a matches and nothing
in l2 matches yields the value computed at a, whatever came before. -/
theorem foldl_if_last_match {α β : Type} (p : α → Bool) (g : α → β)
    (init : β) (l1 l2 : List α) (a : α) (ha : p a = true)
    (h2 : ∀ b ∈ l2, p b = false) :
    List.foldl (fun acc b => if p b then g b else acc) init (l1 ++ a :: l2) = g a := by
  rw [List.foldl_append, List.foldl_cons, ha]
  simp only [if_true]
  exact foldl_if_no_match p g l2 (g a) h2

/-- Membership of a string value in a list of string values agrees with plain
list membership. -/
theorem pyIn_str_iff (t : String) (l : List String) :
    pyIn (PyVal.str t) (l.map PyVal.str) = true ↔ t ∈ l := by
  induction l with
  | nil => simp [pyIn]
  | cons x xs ih =>
    simp only [List.map_cons, pyIn, List.any_cons, Bool.or_eq_true, List.mem_cons]
    constructor
    · intro h
      rcases h with h | h
      · left
        have : (t == x) = true := h
        exact eq_of_beq this
      · right; exact ih.mp h
    · intro h
      rcases h with h | h
      · left; show (t == x) = true; exact beq_iff_eq.mpr h
      · right; exact ih.mpr h

/-- A (table, uri) pair is never a member of a list of string values: Python
equality across the two shapes is always false. -/
theorem pyIn_pair_false (a b : String) (l : List String) :
    pyIn (PyVal.pair a b) (l.map PyVal.str) = false := by
  induction l with
  | nil => rfl
  | cons x xs ih =>
    simp only [List.map_cons, pyIn, List.any_cons, Bool.or_eq_false_iff]
    exact ⟨rfl, ih⟩

/-- The DOCUMENTED loop over a block of mapped tables all present in the
dataset generates each of them in order and then continues with the rest. -/
theorem documentedLoop_ok_front (tables : List String) (m1 m2 : List (String × String))
    (h1 : ∀ p ∈ m1, p.1 ∈ tables) :
    documentedLoop tables (m1 ++ m2) =
      ((m1.map fun p => (p.1, some p.2)) ++ (documentedLoop tables m2).1,
        (documentedLoop tables m2).2) := by
  induction m1 with
  | nil => simp
  | cons p ps ih =>
    obtain ⟨t, u⟩ := p
    have ht : t ∈ tables := h1 (t, u) (List.mem_cons_self _ _)
    have hin : pyIn (PyVal.str t) (tables.map PyVal.str) = true :=
      (pyIn_str_iff t tables).mpr ht
    have hrest := ih (fun q hq => h1 q (List.mem_cons_of_mem _ hq))
    simp only [List.cons_append, documentedLoop, hin, if_true, List.map_cons,
      List.append_eq, hrest]

/-! Claim theorems. -/

/-- Claim C6, counterexample: with every capability flag disabled, the column
prompt assembled by the source has no generation-base clause, contradicting the
claimed concatenation, which marks only the document and lineage-generation
clauses as TABLE only and therefore keeps the generation-base clause in the
COLUMN prompt. -/
theorem column_prompt_missing_generation_base :
    _get_prompt_columns optsAllOff ≠ claimPromptColumn optsAllOff := by
  decide

/-- Claim C6, amended: for every flag assignment, the TABLE prompt is exactly
the claimed concatenation (system preamble, table base, then the profile,
quality, lineage-tables, lineage-processes and document clauses each gated by
its flag, generation base, lineage generation when either lineage flag is on,
output format), and the COLUMN prompt is the same scheme without the document,
generation-base and lineage-generation clauses. -/
theorem prompt_assembly_order (o : ClientOptions) :
    _get_prompt_table o = claimPromptTable o ∧
    _get_prompt_columns o = claimPromptColumnAmended o := by
  obtain ⟨lt, lp, pr, dq, ed, pc, sr, aw⟩ := o
  cases lt <;> cases lp <;> cases pr <;> cases dq <;> cases ed <;> exact ⟨rfl, rfl⟩

/-- Claim C9: generating a table description for a nonexistent table surfaces
NotFound unchanged, but generating column descriptions for a nonexistent table
does not: the except handler executes raise e(message=...), calling the
NotFound instance, which raises TypeError instead — the code contradicts its
own docstring, which promises NotFound. -/
theorem generate_columns_notfound_transformed :
    generate_table_description_result false (Except.ok "desc") =
      Except.error PyErr.notFound ∧
    generate_columns_descriptions_result false (Except.ok "desc") =
      Except.error PyErr.typeErrorNotCallable ∧
    PyErr.typeErrorNotCallable ≠ PyErr.notFound := by
  refine ⟨rfl, rfl, ?_⟩
  decide

/-- Claim C10: NAIVE returns the input list itself, RANDOM returns the shuffle
of a copy (a permutation whenever the shuffle permutes), ALPHABETICAL returns a
lexicographically sorted permutation — so the three orderings process exactly
the same tables and differ only in order. -/
theorem order_tables_strategy_spec (tables : List String)
    (shuffle : List String → List String)
    (hs : ∀ l : List String, (shuffle l).Perm l) :
    _order_tables_to_strategy tables Strategy.NAIVE shuffle = tables ∧
    (_order_tables_to_strategy tables Strategy.RANDOM shuffle).Perm tables ∧
    (_order_tables_to_strategy tables Strategy.ALPHABETICAL shuffle).Perm tables ∧
    List.Sorted (fun a b => a ≤ b)
      (_order_tables_to_strategy tables Strategy.ALPHABETICAL shuffle) := by
  refine ⟨rfl, hs tables, ?_, ?_⟩
  · exact List.perm_insertionSort (fun a b => a ≤ b) tables
  · exact List.sorted_insertionSort (fun a b => a ≤ b) tables

/-- Witness for order_tables_strategy_spec: List.reverse permutes every list,
and on the concrete table list the NAIVE ordering is the input itself. -/
theorem order_tables_strategy_spec_witness :
    (∀ l : List String, (List.reverse l).Perm l) ∧
    _order_tables_to_strategy ["p.d.b", "p.d.a"] Strategy.NAIVE List.reverse =
      ["p.d.b", "p.d.a"] :=
  ⟨fun l => List.reverse_perm l,
    (order_tables_strategy_spec ["p.d.b", "p.d.a"] List.reverse
      (fun l => List.reverse_perm l)).1⟩

/-- Claim C5: the inference call makes at most 4 attempts. If attempt k
(0-based, k < 4) succeeds after k failures, the call returns that attempt's
text, having slept 2^k - 1 seconds in total; if all 4 attempts fail, it
re-raises the last attempt's error after sleeping 1 + 2 + 4 = 7 seconds
between consecutive attempts. -/
theorem llm_inference_retry_spec (f : Nat → Except String String) :
    (∀ k t, k < 4 → (∀ j, j < k → ∃ e, f j = Except.error e) →
      f k = Except.ok t → _llm_inference f = (Except.ok t, 2 ^ k - 1)) ∧
    (∀ e0 e1 e2 e3,
      f 0 = Except.error e0 → f 1 = Except.error e1 →
      f 2 = Except.error e2 → f 3 = Except.error e3 →
      _llm_inference f = (Except.error e3, 7) ∧ (7 : Nat) = 1 + 2 + 4) := by
  constructor
  · intro k t hk hprev hok
    interval_cases k
    · simp [_llm_inference, llmGo, hok]
    · obtain ⟨e0, h0⟩ := hprev 0 (by omega)
      simp [_llm_inference, llmGo, h0, hok]
    · obtain ⟨e0, h0⟩ := hprev 0 (by omega)
      obtain ⟨e1, h1⟩ := hprev 1 (by omega)
      simp [_llm_inference, llmGo, h0, h1, hok]
    · obtain ⟨e0, h0⟩ := hprev 0 (by omega)
      obtain ⟨e1, h1⟩ := hprev 1 (by omega)
      obtain ⟨e2, h2⟩ := hprev 2 (by omega)
      simp [_llm_inference, llmGo, h0, h1, h2, hok]
  · intro e0 e1 e2 e3 h0 h1 h2 h3
    refine ⟨?_, rfl⟩
    simp [_llm_inference, llmGo, h0, h1, h2, h3]

/-- Witness for llm_inference_retry_spec: a model call that fails on every
attempt exhausts the 4 attempts, re-raises the last error and has slept
exactly 7 seconds. -/
theorem llm_inference_retry_spec_witness :
    (fun _ : Nat => (Except.error "quota" : Except String String)) 0 =
      Except.error "quota" ∧
    _llm_inference (fun _ => Except.error "quota") = (Except.error "quota", 7) :=
  ⟨rfl,
    ((llm_inference_retry_spec (fun _ => Except.error "quota")).2
      "quota" "quota" "quota" "quota" rfl rfl rfl rfl).1⟩

/-- Claim C1, counterexample: dataset table list [p.d.a], DOCUMENTED mapping
[(p.d.a, u1), (p.d.b, u2)] with p.d.b absent. The batch does raise the
table-not-found ValueError for p.d.b, but only after generating a description
for the earlier mapped table p.d.a — the generation trace is not empty, so
generation work does happen before the validation failure. -/
theorem documented_generates_before_validation :
    generate_dataset_tables_descriptions ["p.d.a"] Strategy.DOCUMENTED
        (some [("p.d.a", "u1"), ("p.d.b", "u2")]) id =
      ([("p.d.a", some "u1")], some (BatchErr.tableNotFound ("p.d.b", "u2"))) ∧
    ([("p.d.a", some "u1")] : List (String × Option String)) ≠ [] := by
  refine ⟨?_, by decide⟩
  rfl

/-- Claim C1, amended: validation of the mapping is interleaved with
generation, table by table. For DOCUMENTED, each mapped table is checked
immediately before its own generation, so the ValueError for the first mapped
table absent from the dataset is raised before that table (and any later
entry) is generated, but the mapped tables before it in the mapping have
already been generated. For DOCUMENTED_THEN_REST, the membership test compares
the whole (table, uri) CSV row against the table-name list, so it raises the
ValueError on the first mapped row before any generation at all. -/
theorem documented_validation_interleaved (tables : List String)
    (m1 m2 : List (String × String)) (t u : String)
    (h1 : ∀ p ∈ m1, p.1 ∈ tables) (h2 : t ∉ tables) :
    generate_dataset_tables_descriptions tables Strategy.DOCUMENTED
        (some (m1 ++ (t, u) :: m2)) id =
      ((m1.map fun p => (p.1, some p.2)), some (BatchErr.tableNotFound (t, u))) ∧
    (∀ (ts : List String) (q : String × String) (rest : List (String × String))
        (sh : List String → List String),
      generate_dataset_tables_descriptions ts Strategy.DOCUMENTED_THEN_REST
          (some (q :: rest)) sh =
        ([], some (BatchErr.tableNotFound q))) := by
  constructor
  · show documentedLoop tables (m1 ++ (t, u) :: m2) = _
    rw [documentedLoop_ok_front tables m1 ((t, u) :: m2) h1]
    have hin : pyIn (PyVal.str t) (tables.map PyVal.str) = false := by
      rcases hb : pyIn (PyVal.str t) (tables.map PyVal.str) with _ | _
      · rfl
      · exact absurd ((pyIn_str_iff t tables).mp hb) h2
    simp [documentedLoop, hin]
  · intro ts q rest sh
    obtain ⟨a, b⟩ := q
    simp [generate_dataset_tables_descriptions, documentedThenRestLoop,
      pyIn_pair_false]

/-- Witness for documented_validation_interleaved: a one-row valid block
followed by a missing table; the earlier mapped table is generated before the
error. -/
theorem documented_validation_interleaved_witness :
    ((∀ p ∈ ([("p.d.a", "u1")] : List (String × String)), p.1 ∈ ["p.d.a"]) ∧
      "p.d.x" ∉ ["p.d.a"]) ∧
    generate_dataset_tables_descriptions ["p.d.a"] Strategy.DOCUMENTED
        (some ([("p.d.a", "u1")] ++ ("p.d.x", "u2") :: [])) id =
      ([("p.d.a", some "u1")], some (BatchErr.tableNotFound ("p.d.x", "u2"))) :=
  ⟨⟨by decide, by decide⟩,
    (documented_validation_interleaved ["p.d.a"] [("p.d.a", "u1")] []
      "p.d.x" "u2" (by decide) (by decide)).1⟩

/-- Claim C8, counterexample: choosing DOCUMENTED_THEN_REST with a null mapping
URI does fail before any generation, but with the AttributeError coming from
None.split inside _get_tables_from_uri, not with the validation ValueError:
the explicit missing-documentation check guards only DOCUMENTED. -/
theorem dtr_missing_uri_not_validation :
    generate_dataset_tables_descriptions ["p.d.a"] Strategy.DOCUMENTED_THEN_REST
        none id =
      ([], some BatchErr.noneTypeAttributeError) ∧
    BatchErr.noneTypeAttributeError.isValidationError = false := by
  exact ⟨rfl, rfl⟩

/-- Claim C8, amended: with a null documentation mapping, DOCUMENTED fails fast
with the missing-documentation ValueError before any generation; the
DOCUMENTED_THEN_REST branch also fails before any generation, but with the
AttributeError raised when the mapping reader calls .split on None, which is
not a validation error. -/
theorem documented_missing_uri_behavior (tables : List String)
    (sh : List String → List String) :
    (generate_dataset_tables_descriptions tables Strategy.DOCUMENTED none sh =
        ([], some BatchErr.missingDocUri) ∧
      BatchErr.missingDocUri.isValidationError = true) ∧
    (generate_dataset_tables_descriptions tables Strategy.DOCUMENTED_THEN_REST
          none sh =
        ([], some BatchErr.noneTypeAttributeError) ∧
      BatchErr.noneTypeAttributeError.isValidationError = false) :=
  ⟨⟨rfl, rfl⟩, ⟨rfl, rfl⟩⟩

/-- Claim C3: when the fetched entry holds a table-scope draft aspect (key
ending in global.<template name>, path "") and no later aspect matches that
key, a staged regeneration merges into that record: the stored data is the
existing record with contents replaced by the new description, the generation
date refreshed to now, and to-be-regenerated reset to "false", while the
accumulated human comments and negative examples are preserved. -/
theorem update_table_draft_merges (aspectTemplateName description now : String)
    (l1 l2 : List Aspect) (a : Aspect)
    (ha : draftKeyMatches aspectTemplateName a = true)
    (h2 : ∀ b ∈ l2, draftKeyMatches aspectTemplateName b = false) :
    _update_table_draft_description aspectTemplateName (l1 ++ a :: l2)
        description now =
      mergeDraftData a.data description now ∧
    (_update_table_draft_description aspectTemplateName (l1 ++ a :: l2)
        description now).contents = description ∧
    (_update_table_draft_description aspectTemplateName (l1 ++ a :: l2)
        description now).generationDate = now ∧
    (_update_table_draft_description aspectTemplateName (l1 ++ a :: l2)
        description now).toBeRegenerated = "false" ∧
    (_update_table_draft_description aspectTemplateName (l1 ++ a :: l2)
        description now).humanComments = a.data.humanComments ∧
    (_update_table_draft_description aspectTemplateName (l1 ++ a :: l2)
        description now).negativeExamples = a.data.negativeExamples := by
  have heq : _update_table_draft_description aspectTemplateName (l1 ++ a :: l2)
      description now = mergeDraftData a.data description now :=
    foldl_if_last_match (draftKeyMatches aspectTemplateName)
      (fun b => mergeDraftData b.data description now)
      (newAspectContent description) l1 l2 a ha h2
  refine ⟨heq, ?_, ?_, ?_, ?_, ?_⟩ <;> rw [heq] <;> rfl

/-- Witness for update_table_draft_merges: a second staged generation over the
concrete existing draft keeps its accumulated human comment. -/
theorem update_table_draft_merges_witness :
    (draftKeyMatches "draftname" aspectTableDraft = true ∧
      (∀ b ∈ ([] : List Aspect), draftKeyMatches "draftname" b = false)) ∧
    (_update_table_draft_description "draftname" ([] ++ aspectTableDraft :: [])
        "new text" "2025-01-01T00:00:00Z").humanComments = ["keep it short"] :=
  ⟨⟨by decide, by simp⟩,
    (update_table_draft_merges "draftname" "new text" "2025-01-01T00:00:00Z"
      [] [] aspectTableDraft (by decide) (by simp)).2.2.2.2.1⟩

/-- Claim C4, counterexample: the entry holds the table-scope draft (path "",
contents "old text") and a column-scope draft (path "Schema.c", contents "Y")
of the same aspect type. The table accept matches on the aspect-type suffix
only, never inspecting the path, so the later column aspect wins and "Y" is
written to the catalog overview and the BigQuery description instead of the
table-scope contents "old text". -/
theorem accept_table_ignores_path :
    aspectTableDraft.path = "" ∧
    aspectTableDraft.data.contents = "old text" ∧
    accept_table_draft_description "draftname" [aspectTableDraft, aspectColumnDraft] =
      some ("Y", "Y") ∧
    ("Y" : String) ≠ "old text" := by
  refine ⟨rfl, rfl, ?_, by decide⟩
  rfl

/-- Claim C4, amended: the table accept writes, as both catalog overview and
warehouse description, the contents of the last aspect in iteration order
whose aspect-type ends with aspectTypes/<template name> — the path is ignored,
so this is the table-scope draft's contents exactly when no later aspect (such
as a column draft of the same type) matches. The column accept requires both
the aspect-type suffix aspectTypes/<template name> and the path suffix
Schema.<column>, and hands that aspect's contents to the single-column schema
rewrite as the new warehouse column description. -/
theorem accept_draft_contents_amended (aspectTemplateName : String) :
    (∀ (l1 l2 : List Aspect) (a : Aspect),
      pyEndsWith a.aspectType ("aspectTypes/" ++ aspectTemplateName) = true →
      (∀ b ∈ l2,
        pyEndsWith b.aspectType ("aspectTypes/" ++ aspectTemplateName) = false) →
      accept_table_draft_description aspectTemplateName (l1 ++ a :: l2) =
        some (a.data.contents, a.data.contents)) ∧
    (∀ (columnName : String) (l1 l2 : List Aspect) (a : Aspect)
        (schema : List SchemaField) (maxLen : Nat),
      (pyEndsWith a.aspectType ("aspectTypes/" ++ aspectTemplateName) &&
        pyEndsWith a.path ("Schema." ++ columnName)) = true →
      (∀ b ∈ l2,
        (pyEndsWith b.aspectType ("aspectTypes/" ++ aspectTemplateName) &&
          pyEndsWith b.path ("Schema." ++ columnName)) = false) →
      accept_column_draft_description aspectTemplateName columnName (l1 ++ a :: l2)
          schema maxLen =
        some (_update_column_bq_description schema columnName a.data.contents maxLen)) := by
  constructor
  · intro l1 l2 a ha h2
    have hov : acceptTableOverview aspectTemplateName (l1 ++ a :: l2) =
        some a.data.contents := by
      unfold acceptTableOverview
      exact foldl_if_last_match
        (fun b => pyEndsWith b.aspectType ("aspectTypes/" ++ aspectTemplateName))
        (fun b => some b.data.contents) none l1 l2 a ha h2
    simp [accept_table_draft_description, hov]
  · intro columnName l1 l2 a schema maxLen ha h2
    have hov : acceptColumnOverview aspectTemplateName columnName (l1 ++ a :: l2) =
        some a.data.contents := by
      unfold acceptColumnOverview
      exact foldl_if_last_match
        (fun b => pyEndsWith b.aspectType ("aspectTypes/" ++ aspectTemplateName) &&
          pyEndsWith b.path ("Schema." ++ columnName))
        (fun b => some b.data.contents) none l1 l2 a ha h2
    simp [accept_column_draft_description, hov]

/-- Witness for accept_draft_contents_amended: with the table-scope draft as
the only matching aspect, accepting writes its contents to both stores. -/
theorem accept_draft_contents_amended_witness :
    (pyEndsWith aspectTableDraft.aspectType ("aspectTypes/" ++ "draftname") = true ∧
      (∀ b ∈ ([] : List Aspect),
        pyEndsWith b.aspectType ("aspectTypes/" ++ "draftname") = false)) ∧
    accept_table_draft_description "draftname" ([] ++ aspectTableDraft :: []) =
      some ("old text", "old text") :=
  ⟨⟨by decide, by simp⟩,
    (accept_draft_contents_amended "draftname").1 [] [] aspectTableDraft
      (by decide) (by simp)⟩

/-- Claim C7: updating column k's description (target located by its name,
which is unique in the schema) returns a full schema of the same length in
which the target column is the rebuilt field — its description equal to the
new text truncated to the maximum length, its name, type, mode, nested
sub-fields and policy tags preserved — and every other column is the original
descriptor, unchanged and in its original position. -/
theorem update_column_bq_description_spec (schema : List SchemaField) (k : Nat)
    (hk : k < schema.length) (d : String) (maxLen : Nat)
    (huniq : ∀ j, ∀ hj : j < schema.length, j ≠ k →
      (schema.get ⟨j, hj⟩).name ≠ (schema.get ⟨k, hk⟩).name) :
    (_update_column_bq_description schema (schema.get ⟨k, hk⟩).name d maxLen).length =
      schema.length ∧
    (∀ hk2 : k < (_update_column_bq_description schema (schema.get ⟨k, hk⟩).name d
        maxLen).length,
      (_update_column_bq_description schema (schema.get ⟨k, hk⟩).name d maxLen).get
          ⟨k, hk2⟩ =
        _get_updated_column (schema.get ⟨k, hk⟩) d maxLen) ∧
    (∀ j, ∀ hj : j < schema.length, j ≠ k →
      ∀ hj2 : j < (_update_column_bq_description schema (schema.get ⟨k, hk⟩).name d
          maxLen).length,
        (_update_column_bq_description schema (schema.get ⟨k, hk⟩).name d maxLen).get
            ⟨j, hj2⟩ =
          schema.get ⟨j, hj⟩) ∧
    (_get_updated_column (schema.get ⟨k, hk⟩) d maxLen).description =
      some (d.take maxLen) ∧
    (_get_updated_column (schema.get ⟨k, hk⟩) d maxLen).name =
      (schema.get ⟨k, hk⟩).name ∧
    (_get_updated_column (schema.get ⟨k, hk⟩) d maxLen).fieldType =
      (schema.get ⟨k, hk⟩).fieldType ∧
    (_get_updated_column (schema.get ⟨k, hk⟩) d maxLen).mode =
      (schema.get ⟨k, hk⟩).mode ∧
    (_get_updated_column (schema.get ⟨k, hk⟩) d maxLen).fields =
      (schema.get ⟨k, hk⟩).fields ∧
    (_get_updated_column (schema.get ⟨k, hk⟩) d maxLen).policyTags =
      (schema.get ⟨k, hk⟩).policyTags := by
  refine ⟨?_, ?_, ?_, rfl, rfl, rfl, rfl, rfl, rfl⟩
  · simp [_update_column_bq_description]
  · intro hk2
    simp only [_update_column_bq_description, List.get_eq_getElem, List.getElem_map]
    simp
  · intro j hj hne hj2
    simp only [_update_column_bq_description, List.get_eq_getElem, List.getElem_map]
    have hnames : ((schema.get ⟨j, hj⟩).name == (schema.get ⟨k, hk⟩).name) = false :=
      beq_eq_false_iff_ne.mpr (huniq j hj hne)
    simp only [List.get_eq_getElem] at hnames
    simp [hnames]

/-- Witness for update_column_bq_description_spec: on the concrete two-column
schema with distinct names, updating column 0 keeps the schema length. -/
theorem update_column_bq_description_spec_witness :
    (∀ j, ∀ hj : j < sampleSchema.length, j ≠ 0 →
      (sampleSchema.get ⟨j, hj⟩).name ≠
        (sampleSchema.get ⟨0, by decide⟩).name) ∧
    (_update_column_bq_description sampleSchema "id" "fresh text" 5).length =
      sampleSchema.length :=
  ⟨by decide,
    (update_column_bq_description_spec sampleSchema 0 (by decide) "fresh text" 5
      (by decide)).1⟩

/-- Claim C2, counterexample: with all flags enabled and a lineage environment
returning no upstream tables, _get_table_sources_info mutates the shared
options (use_lineage_tables becomes false), and the subsequent sibling call —
even against an environment that does have an upstream table — sees the
cleared flag and returns no source info: the suppression leaks. -/
theorem capability_flags_mutated :
    (_get_table_sources_info optsAllOn optsAllOn.use_lineage_tables envNoLineage).2 ≠
      optsAllOn ∧
    (_get_table_sources_info
        (_get_table_sources_info optsAllOn optsAllOn.use_lineage_tables envNoLineage).2
        ((_get_table_sources_info optsAllOn optsAllOn.use_lineage_tables
            envNoLineage).2.use_lineage_tables)
        envOneSource).1 = [] := by
  refine ⟨?_, rfl⟩
  decide

/-- Claim C2, amended: the profile and quality fetchers never change the
options (their suppression line is commented out in the source, so an empty
result is returned with the flag untouched); but when lineage tables are
enabled and the upstream-table list is empty, _get_table_sources_info sets
use_lineage_tables to false on the shared options, and a subsequent sibling
call then returns no source info whatever its environment; likewise
_get_job_sources clears use_lineage_processes when the link search returns no
links. Only a nonempty fetch leaves the options unchanged. -/
theorem lineage_flag_mutation_amended (opts : ClientOptions) (env env2 : LineageEnv)
    (senv : ScanEnv) :
    (_get_table_profile opts opts.use_profile senv).2 = opts ∧
    (_get_table_quality opts opts.use_data_quality senv).2 = opts ∧
    (env.tableSources ≠ [] →
      (_get_table_sources_info opts opts.use_lineage_tables env).2 = opts) ∧
    (opts.use_lineage_tables = true → env.tableSources = [] →
      ((_get_table_sources_info opts opts.use_lineage_tables env).2.use_lineage_tables =
          false ∧
        _get_table_sources_info
            (_get_table_sources_info opts opts.use_lineage_tables env).2
            ((_get_table_sources_info opts opts.use_lineage_tables
                env).2.use_lineage_tables)
            env2 =
          ([], (_get_table_sources_info opts opts.use_lineage_tables env).2))) ∧
    (opts.use_lineage_processes = true → env.searchLinks = Except.ok [] →
      (_get_job_sources opts opts.use_lineage_processes env).2.use_lineage_processes =
        false) := by
  refine ⟨rfl, rfl, ?_, ?_, ?_⟩
  · intro hne
    by_cases h : opts.use_lineage_tables = true
    · cases henv : env.tableSources with
      | nil => exact absurd henv hne
      | cons x xs => simp [_get_table_sources_info, h, henv]
    · have hfalse : opts.use_lineage_tables = false := by
        cases hb : opts.use_lineage_tables
        · rfl
        · exact absurd hb h
      simp [_get_table_sources_info, hfalse]
  · intro hflag hempty
    have h2 : (_get_table_sources_info opts opts.use_lineage_tables
        env).2.use_lineage_tables = false := by
      simp [_get_table_sources_info, hflag, hempty]
    refine ⟨h2, ?_⟩
    rw [h2]
    simp [_get_table_sources_info]
  · intro hflag hlinks
    simp [_get_job_sources, hflag, hlinks]

/-- Witness for lineage_flag_mutation_amended: the all-enabled options against
the empty lineage environment end up with use_lineage_tables cleared. -/
theorem lineage_flag_mutation_amended_witness :
    (optsAllOn.use_lineage_tables = true ∧ envNoLineage.tableSources = []) ∧
    (_get_table_sources_info optsAllOn optsAllOn.use_lineage_tables
        envNoLineage).2.use_lineage_tables = false :=
  ⟨⟨rfl, rfl⟩,
    ((lineage_flag_mutation_amended optsAllOn envNoLineage envNoLineage
      ⟨[], []⟩).2.2.2.1 rfl rfl).1⟩
